import Mathlib

/-!
Shallow embedding of the htshell repository (src/main.go and the two unnamed
variants src/unnamed/part_000 and src/unnamed/part_001) for checking its
natural-language specification. Pure fragments of the Go code are translated
into Lean functions; the process environment is an explicit lookup function;
results of subprocesses and of fallible OS calls are supplied as parameters;
machine integers are Nat/Int with the explicit 2 ^ 63 bounds that the Go code
checks. The three Go files are near-identical evolutions of one program; each
is embedded in its own namespace (MainGo, Part001, Part000) where they differ.
-/

/-- Process environment as a lookup function, the view Go os.Getenv and
os.LookupEnv give; none models an unset variable. -/
abbrev EnvFun := String → Option String

/-- Go os.Setenv: point update of the process environment. -/
def setEnv (e : EnvFun) (k v : String) : EnvFun :=
  fun q => if q = k then some v else e q

/-- Go os.Getenv: the value of the variable, or the empty string when unset. -/
def getenvD (e : EnvFun) (k : String) : String :=
  match e k with
  | some v => v
  | none => ""

/-- Lookup in an explicit cmd.Env entry list; on duplicate keys the last entry
wins, as in the environment handed to the child by Go os/exec. -/
def lookupLast (l : List (String × String)) (k : String) : Option String :=
  match l with
  | [] => none
  | (k0, v0) :: rest =>
    match lookupLast rest k with
    | some v => some v
    | none => if k = k0 then some v0 else none

/-- Subprocess command as built by Go exec.Command, restricted to the fields the
claims depend on: program, argument vector, and cmd.Env. env = none models a
nil cmd.Env, which makes the child inherit the parent process environment. -/
structure GoCmd where
  program : String
  args : List String
  env : Option (List (String × String))

/-- Environment variable a spawned command observes: a nil cmd.Env inherits the
parent process environment, a non-nil cmd.Env is used verbatim (Go os/exec). -/
def childSees (parent : EnvFun) (c : GoCmd) (k : String) : Option String :=
  match c.env with
  | none => parent k
  | some l => lookupLast l k

/-- Byte index of the last colon in the captured output, minus one when there
is none: Go bytes.LastIndex(out, []byte(":")) over ASCII output. -/
def lastColonIndex (out : List Char) : Int :=
  match out with
  | [] => -1
  | c :: rest =>
    let r := lastColonIndex rest
    if r ≥ 0 then r + 1 else if c = ':' then 0 else -1

/-- Getsh of src/unnamed/part_000 lines 136-153 (identical in part_001 lines
101-118): the SHELL environment variable wins when set; otherwise the output of
the getent subprocess is parsed. getentOut = none models a non-zero exit or
launch failure of getent; some out is the captured stdout. Empty output and a
last colon at index zero or absent fall back. Otherwise the Go code returns
string(out[loc+1 : len(out)-1]), i.e. everything after the last colon with the
final byte of the output removed (the src/main.go Getsh, lines 90-104, is the
same function without the SHELL branch). Go panics when loc+1 exceeds
len(out)-1 (output ending in a colon); no claim touches that corner and the
model returns the empty slice there. -/
def Getsh (shellEnv : Option String) (getentOut : Option String) (fallback : String) :
    String × Option String :=
  match shellEnv with
  | some sh => (sh, none)
  | none =>
    match getentOut with
    | none => (fallback, some "getent: non-zero exit or launch failure")
    | some out =>
      if out.length = 0 then
        (fallback, some "empty output from getent")
      else
        let l := out.toList
        let loc := lastColonIndex l
        if loc ≤ 0 then
          (fallback, some ("bad output from getent: " ++ out))
        else
          (String.mk ((l.drop (loc.toNat + 1)).take (l.length - 1 - (loc.toNat + 1))), none)

/-- The string fmt produces for a %s verb applied to an error value: the error
message when non-nil, and the fmt nil-interface marker when nil. -/
def goFormatErr : Option String → String
  | some e => e
  | none => "%!s(<nil>)"

/-- How a variant of the session driver reacts to the initial synchronous
refresh: whether an interactive shell is subsequently spawned, and which
diagnostic (if any) the driver emits about a failed initial refresh. -/
structure InitialRefreshReaction where
  shellSpawned : Bool
  diagnostic : Option String
  deriving DecidableEq

/-- Nanoseconds per unit: the unitMap of Go time.ParseDuration. -/
def unitNanos : String → Option Nat
  | "ns" => some 1
  | "us" => some 1000
  | "µs" => some 1000
  | "μs" => some 1000
  | "ms" => some 1000000
  | "s" => some 1000000000
  | "m" => some 60000000000
  | "h" => some 3600000000000
  | _ => none

/-- Go time.leadingInt: consume leading decimal digits into x; none models the
overflow error (the uint64 guards x > 2^63/10 before and x > 2^63 after each
step, as in the Go source). -/
def leadingInt : List Char → Nat → Option (Nat × List Char)
  | [], x => some (x, [])
  | c :: rest, x =>
    if c.isDigit then
      if x > 2 ^ 63 / 10 then none
      else
        let x1 := x * 10 + (c.toNat - 48)
        if x1 > 2 ^ 63 then none
        else leadingInt rest x1
    else some (x, c :: rest)

/-- Go time.leadingFraction: digits after the decimal point, with
scale = 10 ^ count; on overflow x and scale freeze but digits are still
consumed, as in the Go source. -/
def leadingFraction : List Char → Nat → Nat → Bool → Nat × Nat × List Char
  | [], x, scale, _ => (x, scale, [])
  | c :: rest, x, scale, overflow =>
    if c.isDigit then
      if overflow then leadingFraction rest x scale true
      else if x > (2 ^ 63 - 1) / 10 then leadingFraction rest x scale true
      else
        let y := x * 10 + (c.toNat - 48)
        if y > 2 ^ 63 then leadingFraction rest x scale true
        else leadingFraction rest y (scale * 10) false
    else (x, scale, c :: rest)

/-- Unit-NAME scan of Go time.ParseDuration: bytes up to the next dot or digit. -/
def takeUnit : List Char → List Char × List Char
  | [] => ([], [])
  | c :: rest =>
    if c = '.' then ([], c :: rest)
    else if c.isDigit then ([], c :: rest)
    else
      let r := takeUnit rest
      (c :: r.1, r.2)

/-- Loop of Go time.ParseDuration over the groups ([0-9]*(\.[0-9]*)?unit),
accumulating nanoseconds in d; none models every error ParseDuration reports
(bad syntax, missing or unknown unit, overflow). Go computes the fractional
contribution as uint64(float64(f) * (float64(unit) / scale)); here it is the
exact floor of f * unit / scale, which agrees except possibly in the final
nanosecond of extreme fractions; no claim depends on that digit. fuel bounds
the recursion and exceeds the input length at the call site in parseDuration,
while each loop iteration consumes at least one character, so the fuel is
never exhausted on the inputs any theorem below evaluates. -/
def parseUnits : Nat → List Char → Nat → Option Nat
  | _, [], d => some d
  | 0, _ :: _, _ => none
  | fuel + 1, c :: s0, d =>
    if c = '.' ∨ c.isDigit = true then
      match leadingInt (c :: s0) 0 with
      | none => none
      | some (v0, s1) =>
        let pre := decide (s1.length ≠ (c :: s0).length)
        let fr :=
          match s1 with
          | '.' :: s2 =>
            let lf := leadingFraction s2 0 1 false
            (lf.1, lf.2.1, lf.2.2, decide (lf.2.2.length ≠ s2.length))
          | _ => (0, 1, s1, false)
        if pre = false ∧ fr.2.2.2 = false then none
        else
          match takeUnit fr.2.2.1 with
          | ([], _) => none
          | (u, s3) =>
            match unitNanos (String.mk u) with
            | none => none
            | some unit =>
              if v0 > 2 ^ 63 / unit then none
              else
                let v1 := v0 * unit
                let v2 := if fr.1 > 0 then v1 + fr.1 * unit / fr.2.1 else v1
                if v2 > 2 ^ 63 then none
                else
                  let d1 := d + v2
                  if d1 > 2 ^ 63 then none
                  else parseUnits fuel s3 d1
    else none

/-- Model of Go time.ParseDuration (standard-library function, external to this
repository), following the Go source: optional sign, the special case of a bare
zero, then the group loop; the result is the duration in nanoseconds, none
where Go returns an error. A non-negative total above 2^63 - 1 is an error; a
negative total may reach -2^63. -/
def parseDuration (s : String) : Option Int :=
  let l := s.toList
  let signed :=
    match l with
    | '-' :: rest => (true, rest)
    | '+' :: rest => (false, rest)
    | _ => (false, l)
  if signed.2 = ['0'] then some 0
  else if signed.2 = [] then none
  else
    match parseUnits (signed.2.length + 1) signed.2 0 with
    | none => none
    | some d =>
      if signed.1 then some (-(Int.ofNat d))
      else if d > 2 ^ 63 - 1 then none
      else some (Int.ofNat d)

/-- Init of src/unnamed/part_000 lines 27-34 (identical in part_001 lines
19-27) restricted to the refresh interval: with HTSHELL_REFRESH_INTERVAL unset
the default of 10 * time.Minute stands; otherwise the value is handed to
time.ParseDuration, a parse error panics (Except.error, fatal startup), and a
successful parse installs the parsed duration with no further validation.
The result is RefreshInterval in nanoseconds. -/
def initRefreshInterval (envVal : Option String) : Except String Int :=
  match envVal with
  | none => Except.ok (10 * 60 * 1000000000)
  | some r =>
    match parseDuration r with
    | none => Except.error ("time: invalid duration " ++ r)
    | some d => Except.ok d

/-- How the part_000 session driver leaves main: a normal return runs the
deferred removals; log.Fatalf terminates through os.Exit, which runs no
deferred calls; a panic unwinds the stack and runs them. -/
inductive ExitPath
  | normalExit
  | fatalExit
  | panicExit
  deriving DecidableEq

/-- One run of part_000 main, restricted to which exit path is taken and which
of the two scratch files (token file and refresher log file) still exist on
disk once the process is gone. -/
structure DriverRun where
  exitPath : ExitPath
  tokenFileRemains : Bool
  logFileRemains : Bool
  deriving DecidableEq

/-- Outcome of one select in the refresher loop of part_000: either the
interval timer fired, or the done channel of the cancelled context was read. -/
inductive LoopBranch
  | timer
  | ctxDone
  deriving DecidableEq

/-- What a call to part_000 Refresher.Stop does, distinguished by the states
its two statements can be in: r.cancel() panics when cancel still holds the
nil zero value; r.wg.Wait() returns at once when the group counter is zero and
otherwise blocks until the goroutine runs its deferred Done. -/
inductive StopOutcome
  | nilFuncPanic
  | returnsImmediately
  | blocksForTask
  deriving DecidableEq

/-- Lifecycle fields of the part_000 Refresher (lines 156-161): cancel models
the stored context.CancelFunc (none is the nil zero value before Start assigns
it on line 169) and wgCount the sync.WaitGroup counter. -/
structure RefresherLife where
  cancel : Option Unit
  wgCount : Nat
  deriving DecidableEq

/-- Zero value of the lifecycle fields: the composite literal of part_000
lines 83-86 sets only TokenFile and Log, leaving cancel nil and the group
counter zero. -/
def RefresherLife.new : RefresherLife :=
  { cancel := none, wgCount := 0 }

/-- Refresher.Start (part_000 lines 164-186): stores a cancel function and
adds one to the wait group before spawning the loop goroutine. -/
def RefresherLife.start (r : RefresherLife) : RefresherLife :=
  { cancel := some (), wgCount := r.wgCount + 1 }

/-- Exit of the loop goroutine: its deferred wg.Done (part_000 line 172). -/
def RefresherLife.taskExit (r : RefresherLife) : RefresherLife :=
  { r with wgCount := r.wgCount - 1 }

/-- Refresher.Stop (part_000 lines 189-193): call r.cancel(), then r.wg.Wait().
Calling a nil Go function value panics, so a Stop before any Start panics;
with cancel set, the wait returns immediately exactly when the counter is
already zero. -/
def RefresherLife.stop (r : RefresherLife) : StopOutcome :=
  match r.cancel with
  | none => StopOutcome.nilFuncPanic
  | some _ =>
    if r.wgCount = 0 then StopOutcome.returnsImmediately else StopOutcome.blocksForTask

namespace MainGo

/-- Refresh of src/main.go lines 107-116: htgettoken with the process
arguments after the program name; cmd.Env is nil until the single append of
BEARER_TOKEN_FILE=f, so the child sees exactly that one entry. -/
def refreshCmd (osArgs : List String) (f : String) : GoCmd :=
  { program := "htgettoken", args := osArgs.drop 1,
    env := some [("BEARER_TOKEN_FILE", f)] }

/-- All htgettoken invocations src/main.go performs, paired with the process
environment in effect: the initial refresh of line 53 plus n background
refreshes of line 65, every one built by Refresh with f = tok.Name(). -/
def invocationTrace (osArgs : List String) (parent : EnvFun) (tokName : String)
    (n : Nat) : List (GoCmd × EnvFun) :=
  List.replicate (n + 1) (refreshCmd osArgs tokName, parent)

/-- Shell command of src/main.go lines 36-49: exec.Command leaves cmd.Env nil,
and the two appends (line 41 and line 49) produce a two-entry environment, so
the child does not inherit the parent process environment (Go os/exec: a nil
Env inherits, a non-nil Env is used verbatim). -/
def shellCmd (sh : String) (tokName : String) : GoCmd :=
  { program := sh, args := ["-i", "-l"],
    env := some [("PS1", "[htshell:\\w]\\$"), ("BEARER_TOKEN_FILE", tokName)] }

/-- Initial-refresh step of src/main.go line 53: the statement
Refresh(tok.Name(), true) discards the returned error — it is neither bound
nor tested nor logged — and execution falls through to starting the refresher
and the shell. -/
def initialReaction (refreshErr : Option String) : InitialRefreshReaction :=
  { shellSpawned := true, diagnostic := none }

end MainGo

namespace Part001

/-- Refresh of src/unnamed/part_001 lines 121-129: the parameter f is accepted
but never used in the body, and cmd.Env stays nil, so the child inherits the
process environment. -/
def refreshCmd (osArgs : List String) (f : String) : GoCmd :=
  { program := "htgettoken", args := osArgs.drop 1, env := none }

/-- All htgettoken invocations part_001 performs, paired with the process
environment in effect: os.Setenv("BEARER_TOKEN_FILE", tok.Name()) of line 42
precedes the initial refresh of line 46 and the n background refreshes of
line 60. -/
def invocationTrace (osArgs : List String) (parent : EnvFun) (tokName : String)
    (n : Nat) : List (GoCmd × EnvFun) :=
  List.replicate (n + 1) (refreshCmd osArgs tokName, setEnv parent "BEARER_TOKEN_FILE" tokName)

/-- Fatal diagnostics of part_001 main lines 36-48 with the Go variable err
tracked explicitly: os.CreateTemp assigns err (line 37); the condition of
line 46 tests the Refresh result without binding it; the Fatalf of line 47
formats the current value of err, which a successful CreateTemp left nil. -/
def initialDiagnostic (createTempErr : Option String) (refreshErr : Option String) :
    Option String :=
  match createTempErr with
  | some e => some ("unable to create token file: " ++ e)
  | none =>
    let err : Option String := none
    if refreshErr.isSome then
      some ("unable to get initial token: " ++ goFormatErr err)
    else none

/-- Reaction of part_001 to the initial refresh: a non-nil result hits the
Fatalf of line 47 (process exits before any shell); a nil result proceeds. -/
def initialReaction (refreshErr : Option String) : InitialRefreshReaction :=
  { shellSpawned := refreshErr.isNone,
    diagnostic := initialDiagnostic none refreshErr }

end Part001

namespace Part000

/-- Refresher.Refresh of part_000 lines 197-211: htgettoken with the process
arguments after the program name; cmd.Env is never assigned (nil), so the
child inherits the process environment. -/
def refreshCmd (osArgs : List String) : GoCmd :=
  { program := "htgettoken", args := osArgs.drop 1, env := none }

/-- Process environment after the Setenv calls of part_000 main lines 71-75:
BEARER_TOKEN_FILE is set to the token path, and with ExportBearerToken also
PROMPT_COMMAND (os.Getenv on an unset variable yields the empty string). -/
def envAfterSetup (parent : EnvFun) (tokName : String) (exportBearer : Bool) : EnvFun :=
  if exportBearer then
    setEnv (setEnv parent "BEARER_TOKEN_FILE" tokName) "PROMPT_COMMAND"
      ("export BEARER_TOKEN=$(cat " ++ tokName ++ ");" ++
        getenvD (setEnv parent "BEARER_TOKEN_FILE" tokName) "PROMPT_COMMAND")
  else setEnv parent "BEARER_TOKEN_FILE" tokName

/-- All htgettoken invocations part_000 performs, paired with the process
environment in effect: the initial interactive refresh of line 93 plus n
background refreshes of line 176, all after the Setenv calls. -/
def invocationTrace (osArgs : List String) (parent : EnvFun) (tokName : String)
    (exportBearer : Bool) (n : Nat) : List (GoCmd × EnvFun) :=
  List.replicate (n + 1) (refreshCmd osArgs, envAfterSetup parent tokName exportBearer)

/-- Select loop of part_000 Refresher.Start lines 171-184, driven by a schedule
of select outcomes and by the result of the k-th background Refresh (res k;
none is a nil error). The value is (number of Refresh invocations, logged
error messages, whether the goroutine returned). A timer outcome runs one
Refresh, logs its error when non-nil (lines 176-179), and loops; a ctxDone
outcome returns at once (lines 180-181), so schedule entries after it are
never consumed. -/
def loopRunLogged (res : Nat → Option String) :
    List LoopBranch → Nat → Nat × List String × Bool
  | [], _ => (0, [], false)
  | LoopBranch.timer :: rest, k =>
    let r := loopRunLogged res rest (k + 1)
    match res k with
    | some e => (r.1 + 1, ("error refreshing token: " ++ e) :: r.2.1, r.2.2)
    | none => (r.1 + 1, r.2.1, r.2.2)
  | LoopBranch.ctxDone :: _, _ => (0, [], true)

/-- Stop of part_000 lines 189-193 as seen from the foreground after a Start:
cancel, then wg.Wait, which returns exactly when the loop goroutine has run
its deferred wg.Done (line 172), i.e. when the loop has returned. -/
def stopWaitReturns (res : Nat → Option String) (sched : List LoopBranch) : Bool :=
  (loopRunLogged res sched 0).2.2

/-- Session driver of part_000 main (lines 58-132) restricted to exit path and
file cleanup. Each flag tells whether the corresponding fallible step
succeeds, in program order: user.Current (line 60), os.CreateTemp (line 66,
followed by the deferred removal of the token file on line 70), os.Create of
the refresher log (line 78, followed by its deferred removal on line 82), the
initial Refresh (line 93), and cmd.Start for the shell (line 128, whose
failure panics). Refresher.Start always returns nil, so its error branch
(lines 97-99) is dead, as is the second test of the log-file err on lines
87-89. Failures of the first four steps go through log.Fatalf, which exits
the process without running the deferred removals; the panic of line 129 and
the normal return do run them. -/
def mainRun (userOk createTempOk createLogOk initialRefreshOk shellStartOk : Bool) :
    DriverRun :=
  if userOk = false then
    { exitPath := ExitPath.fatalExit, tokenFileRemains := false, logFileRemains := false }
  else if createTempOk = false then
    { exitPath := ExitPath.fatalExit, tokenFileRemains := false, logFileRemains := false }
  else if createLogOk = false then
    { exitPath := ExitPath.fatalExit, tokenFileRemains := true, logFileRemains := false }
  else if initialRefreshOk = false then
    { exitPath := ExitPath.fatalExit, tokenFileRemains := true, logFileRemains := true }
  else if shellStartOk = false then
    { exitPath := ExitPath.panicExit, tokenFileRemains := false, logFileRemains := false }
  else
    { exitPath := ExitPath.normalExit, tokenFileRemains := false, logFileRemains := false }

/-- Reaction of part_000 to the initial refresh (lines 93-95): a non-nil
result hits log.Fatalf with the actual error formatted, before any shell. -/
def initialReaction (refreshErr : Option String) : InitialRefreshReaction :=
  match refreshErr with
  | some e =>
    { shellSpawned := false, diagnostic := some ("unable to get initial token: " ++ e) }
  | none => { shellSpawned := true, diagnostic := none }

end Part000

/-- Point update of the environment hits its own key. -/
theorem setEnv_same (e : EnvFun) (k v : String) : setEnv e k v k = some v := by
  show (if k = k then some v else e k) = some v
  rw [if_pos rfl]

/-- Point update of the environment leaves other keys alone. -/
theorem setEnv_other (e : EnvFun) (k v q : String) (h : q ≠ k) : setEnv e k v q = e q := by
  show (if q = k then some v else e q) = e q
  rw [if_neg h]

/-- C1 counterexample: on a Refresher whose Start was never called, the stored
cancel function still holds its nil zero value and Stop invokes it — a panic —
refuting the claim that Stop without a prior Start neither panics nor
deadlocks. -/
theorem c1_stop_before_start_panics :
    RefresherLife.stop RefresherLife.new = StopOutcome.nilFuncPanic := rfl

/-- C1 (amended): once Start has set the cancel function, a Stop performed when
the background task has already exited — in particular a second Stop after a
completed first one — does not panic and its wait returns immediately, the
group counter being zero; only a Stop before any Start panics, on the nil
cancel function. -/
theorem c1_second_stop_returns_immediately :
    ∀ r : RefresherLife, r.cancel = some () → r.wgCount = 0 →
      RefresherLife.stop r = StopOutcome.returnsImmediately := by
  intro r h1 h2
  cases r with
  | mk c w =>
    subst h1
    subst h2
    rfl

/-- C1 witness: the concrete lifecycle Start-then-task-exit, on which a Stop
returns immediately. -/
theorem c1_second_stop_witness :
    RefresherLife.stop (RefresherLife.taskExit (RefresherLife.start RefresherLife.new)) =
      StopOutcome.returnsImmediately :=
  c1_second_stop_returns_immediately _ rfl rfl

/-- C2 counterexample: in part_000, when the initial refresh fails after both
scratch files were created, the driver exits through log.Fatalf, the deferred
removals never run, and both the token file and the log file survive the
process — refuting the claim that every fatal-error exit taken after their
creation deletes them. -/
theorem c2_fatal_exit_keeps_files :
    Part000.mainRun true true true false true =
      { exitPath := ExitPath.fatalExit, tokenFileRemains := true, logFileRemains := true } :=
  rfl

/-- C2 (amended): on every run of part_000 main that does not leave through
log.Fatalf — the normal return and the panic on a shell-start failure — the
deferred removals run and neither the token file nor the log file remains. -/
theorem c2_cleanup_on_non_fatal_exits :
    ∀ u c l i s : Bool, (Part000.mainRun u c l i s).exitPath ≠ ExitPath.fatalExit →
      (Part000.mainRun u c l i s).tokenFileRemains = false ∧
      (Part000.mainRun u c l i s).logFileRemains = false := by
  decide

/-- C2 witness: the shell-start-failure run, a panic exit, after which both
files are gone. -/
theorem c2_cleanup_witness :
    (Part000.mainRun true true true true false).exitPath ≠ ExitPath.fatalExit ∧
    (Part000.mainRun true true true true false).tokenFileRemains = false ∧
    (Part000.mainRun true true true true false).logFileRemains = false :=
  ⟨by decide, c2_cleanup_on_non_fatal_exits true true true true false (by decide)⟩

/-- C3 counterexample: the refresh-interval value 0 parses as the zero
duration and init installs it without complaint — the program starts with a
RefreshInterval that is not strictly positive and no fatal error — and -5m
likewise yields a negative interval, refuting the claim that zero or negative
durations are rejected at startup. -/
theorem c3_zero_duration_accepted :
    initRefreshInterval (some "0") = Except.ok 0 ∧
    initRefreshInterval (some "-5m") = Except.ok (-300000000000) ∧
    ¬ (0 < (0 : Int)) := by
  refine ⟨rfl, rfl, by decide⟩

/-- C3 (amended): startup is fatal exactly on values time.ParseDuration
rejects; any successfully parsed duration — zero and negative ones included —
is installed as RefreshInterval with no further validation. -/
theorem c3_parse_result_installed_unchecked :
    (∀ s d, parseDuration s = some d → initRefreshInterval (some s) = Except.ok d) ∧
    (∀ s, parseDuration s = none →
      initRefreshInterval (some s) = Except.error ("time: invalid duration " ++ s)) := by
  constructor
  · intro s d h
    simp [initRefreshInterval, h]
  · intro s h
    simp [initRefreshInterval, h]

/-- C3 witness: the value -1h parses to a negative duration and init installs
it. -/
theorem c3_parse_witness :
    parseDuration "-1h" = some (-3600000000000) ∧
    initRefreshInterval (some "-1h") = Except.ok (-3600000000000) :=
  ⟨rfl, c3_parse_result_installed_unchecked.1 "-1h" (-3600000000000) rfl⟩

/-- C4: src/main.go launches the shell with cmd.Env equal to exactly the two
appended entries, so the whole parent environment is dropped: with a parent
that holds HOME, the child resolves HOME to nothing although the parent does,
while the token variable is present — against the specified behavior (realized
by part_000 line 114 and part_001 line 83 via cmd.Env = os.Environ()) of the
child environment being the parent environment plus the token and prompt
variables. -/
theorem c4_maingo_shell_env_drops_parent :
    childSees (fun k => if k = "HOME" then some "/home/user" else none)
        (MainGo.shellCmd "/bin/bash" "/tmp/bt_u1000_123") "HOME" = none ∧
    (fun k : String => if k = "HOME" then some "/home/user" else none) "HOME" =
      some "/home/user" ∧
    childSees (fun k => if k = "HOME" then some "/home/user" else none)
        (MainGo.shellCmd "/bin/bash" "/tmp/bt_u1000_123") "BEARER_TOKEN_FILE" =
      some "/tmp/bt_u1000_123" := by
  refine ⟨rfl, rfl, rfl⟩

/-- C5 counterexample: in src/main.go a failed initial refresh is discarded —
the driver spawns the shell and emits no diagnostic at all, which is neither
of the two claimed policies (abort, or warn and proceed): the failure is
silently ignored. -/
theorem c5_maingo_silent_ignore :
    (MainGo.initialReaction (some "htgettoken: exit status 1")).shellSpawned = true ∧
    (MainGo.initialReaction (some "htgettoken: exit status 1")).diagnostic = none :=
  ⟨rfl, rfl⟩

/-- C5 (amended): on a failed initial refresh, part_000 and part_001 abort
fatally before any shell is spawned — part_000 formatting the actual error,
part_001 a nil one — while src/main.go surfaces nothing and spawns the shell
anyway. -/
theorem c5_initial_refresh_policies :
    ∀ e : String,
      Part000.initialReaction (some e) =
        { shellSpawned := false,
          diagnostic := some ("unable to get initial token: " ++ e) } ∧
      (Part001.initialReaction (some e)).shellSpawned = false ∧
      (Part001.initialReaction (some e)).diagnostic =
        some "unable to get initial token: %!s(<nil>)" ∧
      MainGo.initialReaction (some e) = { shellSpawned := true, diagnostic := none } :=
  fun _ => ⟨rfl, rfl, rfl, rfl⟩

set_option maxRecDepth 16384 in
/-- C6 counterexample: with SHELL unset, applied to exactly the lookup output
user:x:1000:1000::/home/user:/bin/zsh, Getsh returns /bin/zs — the final
colon-delimited field loses its last byte — so the claimed result /bin/zsh is
not produced on that output. -/
theorem c6_getsh_without_newline :
    (Getsh none (some "user:x:1000:1000::/home/user:/bin/zsh") "/bin/bash").1 = "/bin/zs" ∧
    (Getsh none (some "user:x:1000:1000::/home/user:/bin/zsh") "/bin/bash").1 ≠ "/bin/zsh" := by
  refine ⟨by decide, by decide⟩

set_option maxRecDepth 16384 in
/-- C6 (amended): Getsh returns the SHELL value whenever set; on lookup
failure, on empty output, and on output without a colon at positive index it
returns the fallback; and it strips the final byte of the lookup output after
taking everything past the last colon, so on output carrying its terminating
newline — user:x:1000:1000::/home/user:/bin/zsh plus a line feed — the
resolved shell is exactly /bin/zsh. -/
theorem c6_getsh_resolution :
    (∀ sh g fb, Getsh (some sh) g fb = (sh, none)) ∧
    (∀ fb, (Getsh none none fb).1 = fb) ∧
    (∀ fb, (Getsh none (some "") fb).1 = fb) ∧
    (∀ fb, (Getsh none (some "no colons here\n") fb).1 = fb) ∧
    (∀ fb, (Getsh none (some ":root\n") fb).1 = fb) ∧
    Getsh none (some "user:x:1000:1000::/home/user:/bin/zsh\n") "/bin/bash" =
      ("/bin/zsh", none) :=
  ⟨fun _ _ _ => rfl, fun _ => rfl, fun _ => rfl, fun _ => rfl, fun _ => rfl, by decide⟩

/-- C7: in every variant, every htgettoken invocation of the trace — the
initial interactive refresh and each periodic background refresh — carries the
process arguments after the program name unchanged and observes
BEARER_TOKEN_FILE equal to the token path created at startup: src/main.go sets
the variable explicitly on the command, part_001 and part_000 inherit it from
the process environment set by os.Setenv before any refresh. -/
theorem c7_fetch_invocations :
    ∀ (osArgs : List String) (parent : EnvFun) (tokName : String) (exportBearer : Bool)
      (n : Nat) (p : GoCmd × EnvFun),
      (p ∈ Part000.invocationTrace osArgs parent tokName exportBearer n →
        p.1.program = "htgettoken" ∧ p.1.args = osArgs.drop 1 ∧
        childSees p.2 p.1 "BEARER_TOKEN_FILE" = some tokName) ∧
      (p ∈ Part001.invocationTrace osArgs parent tokName n →
        p.1.program = "htgettoken" ∧ p.1.args = osArgs.drop 1 ∧
        childSees p.2 p.1 "BEARER_TOKEN_FILE" = some tokName) ∧
      (p ∈ MainGo.invocationTrace osArgs parent tokName n →
        p.1.program = "htgettoken" ∧ p.1.args = osArgs.drop 1 ∧
        childSees p.2 p.1 "BEARER_TOKEN_FILE" = some tokName) := by
  intro osArgs parent tokName exportBearer n p
  refine ⟨?_, ?_, ?_⟩
  · intro hp
    have he := List.eq_of_mem_replicate hp
    subst he
    refine ⟨rfl, rfl, ?_⟩
    show Part000.envAfterSetup parent tokName exportBearer "BEARER_TOKEN_FILE" = some tokName
    cases exportBearer with
    | false => exact setEnv_same parent "BEARER_TOKEN_FILE" tokName
    | true =>
      show setEnv (setEnv parent "BEARER_TOKEN_FILE" tokName) "PROMPT_COMMAND"
          ("export BEARER_TOKEN=$(cat " ++ tokName ++ ");" ++
            getenvD (setEnv parent "BEARER_TOKEN_FILE" tokName) "PROMPT_COMMAND")
          "BEARER_TOKEN_FILE" = some tokName
      rw [setEnv_other _ _ _ _ (by decide)]
      exact setEnv_same parent "BEARER_TOKEN_FILE" tokName
  · intro hp
    have he := List.eq_of_mem_replicate hp
    subst he
    exact ⟨rfl, rfl, setEnv_same parent "BEARER_TOKEN_FILE" tokName⟩
  · intro hp
    have he := List.eq_of_mem_replicate hp
    subst he
    exact ⟨rfl, rfl, rfl⟩

/-- C7 witness: a concrete part_000 invocation, with prompt export on — the
fetch tool observes the token path created at startup. -/
theorem c7_fetch_invocations_witness :
    childSees (Part000.envAfterSetup (fun _ => none) "/tmp/bt_u1000_7" true)
        (Part000.refreshCmd ["htshell", "--minsecs", "60"]) "BEARER_TOKEN_FILE" =
      some "/tmp/bt_u1000_7" :=
  ((c7_fetch_invocations ["htshell", "--minsecs", "60"] (fun _ => none) "/tmp/bt_u1000_7"
        true 0
        (Part000.refreshCmd ["htshell", "--minsecs", "60"],
          Part000.envAfterSetup (fun _ => none) "/tmp/bt_u1000_7" true)).1
      (List.Mem.head _)).2.2

/-- C8: however the scheduler interleaves — pre is any prefix of timer
firings, so a refresh signalled before cancellation is observed may still run —
once the loop takes the ctxDone branch it returns at once: the run equals the
run of the schedule truncated at the observation (steps scheduled afterwards
never produce an invocation), the invocation count is exactly the number of
earlier timer firings (no final refresh on the cancellation branch), and the
wait inside Stop returns. -/
theorem c8_cancel_stops_loop :
    ∀ (res : Nat → Option String) (pre post : List LoopBranch) (k : Nat),
      LoopBranch.ctxDone ∉ pre →
      Part000.loopRunLogged res (pre ++ LoopBranch.ctxDone :: post) k =
          Part000.loopRunLogged res (pre ++ [LoopBranch.ctxDone]) k ∧
        (Part000.loopRunLogged res (pre ++ LoopBranch.ctxDone :: post) k).1 = pre.length ∧
        Part000.stopWaitReturns res (pre ++ LoopBranch.ctxDone :: post) = true := by
  have key : ∀ (res : Nat → Option String) (pre : List LoopBranch),
      LoopBranch.ctxDone ∉ pre → ∀ (post : List LoopBranch) (k : Nat),
      Part000.loopRunLogged res (pre ++ LoopBranch.ctxDone :: post) k =
        Part000.loopRunLogged res (pre ++ [LoopBranch.ctxDone]) k := by
    intro res pre
    induction pre with
    | nil => intro _ post k; rfl
    | cons a pre ih =>
      intro h post k
      have ha : a = LoopBranch.timer := by
        cases a
        · rfl
        · exact absurd (List.mem_cons_self _ _) h
      subst ha
      have h2 : LoopBranch.ctxDone ∉ pre := fun hm => h (List.mem_cons_of_mem _ hm)
      have e1 := ih h2 post (k + 1)
      cases hres : res k <;>
        simp only [List.cons_append, List.append_eq, Part000.loopRunLogged, hres, e1]
  have cnt : ∀ (res : Nat → Option String) (pre : List LoopBranch),
      LoopBranch.ctxDone ∉ pre → ∀ (post : List LoopBranch) (k : Nat),
      (Part000.loopRunLogged res (pre ++ LoopBranch.ctxDone :: post) k).1 = pre.length ∧
      (Part000.loopRunLogged res (pre ++ LoopBranch.ctxDone :: post) k).2.2 = true := by
    intro res pre
    induction pre with
    | nil => intro _ post k; exact ⟨rfl, rfl⟩
    | cons a pre ih =>
      intro h post k
      have ha : a = LoopBranch.timer := by
        cases a
        · rfl
        · exact absurd (List.mem_cons_self _ _) h
      subst ha
      have h2 : LoopBranch.ctxDone ∉ pre := fun hm => h (List.mem_cons_of_mem _ hm)
      obtain ⟨i1, i2⟩ := ih h2 post (k + 1)
      cases hres : res k
      all_goals
        simp only [List.cons_append, List.append_eq, Part000.loopRunLogged, hres,
          List.length_cons]
      all_goals exact ⟨by rw [i1], i2⟩
  intro res pre post k h
  exact ⟨key res pre h post k, (cnt res pre h post k).1, (cnt res pre h post 0).2⟩

/-- C8 witness: one timer firing before cancellation and one step scheduled
after it — the posterior step yields nothing, the count is one, and the stop
wait returns. -/
theorem c8_cancel_stops_loop_witness :
    LoopBranch.ctxDone ∉ [LoopBranch.timer] ∧
    (Part000.loopRunLogged (fun _ => none)
        ([LoopBranch.timer] ++ LoopBranch.ctxDone :: [LoopBranch.timer]) 0 =
      Part000.loopRunLogged (fun _ => none) ([LoopBranch.timer] ++ [LoopBranch.ctxDone]) 0) ∧
    (Part000.loopRunLogged (fun _ => none)
        ([LoopBranch.timer] ++ LoopBranch.ctxDone :: [LoopBranch.timer]) 0).1 =
      [LoopBranch.timer].length ∧
    Part000.stopWaitReturns (fun _ => none)
        ([LoopBranch.timer] ++ LoopBranch.ctxDone :: [LoopBranch.timer]) = true :=
  ⟨by decide,
    c8_cancel_stops_loop (fun _ => none) [LoopBranch.timer] [LoopBranch.timer] 0 (by decide)⟩

/-- C9: with every background refresh failing, the loop logs each error and
continues: over any number of interval ticks it performs exactly that many
invocations, logs that many messages, and never terminates on its own. -/
theorem c9_failures_keep_looping :
    ∀ (res : Nat → Option String) (n k : Nat),
      (∀ i, (res i).isSome = true) →
      (Part000.loopRunLogged res (List.replicate n LoopBranch.timer) k).1 = n ∧
      (Part000.loopRunLogged res (List.replicate n LoopBranch.timer) k).2.1.length = n ∧
      (Part000.loopRunLogged res (List.replicate n LoopBranch.timer) k).2.2 = false := by
  intro res n
  induction n with
  | zero => intro k _; exact ⟨rfl, rfl, rfl⟩
  | succ n ih =>
    intro k h
    obtain ⟨em, he⟩ := Option.isSome_iff_exists.mp (h k)
    obtain ⟨i1, i2, i3⟩ := ih (k + 1) h
    refine ⟨?_, ?_, ?_⟩
    · simp only [List.replicate_succ, Part000.loopRunLogged, he]
      rw [i1]
    · simp only [List.replicate_succ, Part000.loopRunLogged, he, List.length_cons]
      rw [i2]
    · simp only [List.replicate_succ, Part000.loopRunLogged, he]
      exact i3

/-- C9 witness: an always-failing stub fetch tool over three ticks — three
invocations, three logged errors, and the loop still running. -/
theorem c9_failures_keep_looping_witness :
    (∀ i : Nat, ((fun _ : Nat => some "exit status 1") i).isSome = true) ∧
    (Part000.loopRunLogged (fun _ => some "exit status 1")
        (List.replicate 3 LoopBranch.timer) 0).1 = 3 ∧
    (Part000.loopRunLogged (fun _ => some "exit status 1")
        (List.replicate 3 LoopBranch.timer) 0).2.1.length = 3 ∧
    (Part000.loopRunLogged (fun _ => some "exit status 1")
        (List.replicate 3 LoopBranch.timer) 0).2.2 = false :=
  ⟨fun _ => rfl,
    c9_failures_keep_looping (fun _ => some "exit status 1") 3 0 (fun _ => rfl)⟩

/-- C10: in part_001, whatever the initial-refresh failure was, the fatal
diagnostic formats the err variable last assigned by temp-file creation —
necessarily nil at that point — so it is the constant nil-formatted message,
independent of the actual cause, which it therefore never contains. -/
theorem c10_nil_error_diagnostic :
    ∀ e : String,
      Part001.initialDiagnostic none (some e) =
        some "unable to get initial token: %!s(<nil>)" ∧
      Part001.initialDiagnostic none (some e) =
        Part001.initialDiagnostic none (some "a completely different cause") :=
  fun _ => ⟨rfl, rfl⟩
